import Mathlib

/-!
Verification of the entitlement-and-sync reconciliation core of the Syncup
dashboard (utils/woocommerce_sync.py, utils/database.py, utils/wordpress_auth.py,
utils/auth.py), shallowly embedded in Lean.

Modelling conventions:
* HTTP calls to the external Gateway are modelled by a `Resp` value describing
  the observable outcome of the call: a non-2xx status (`err`), a raised
  transport exception such as a timeout or connection error (`exn`), or a
  decoded 200 body (`ok`).
* Monetary amounts travel as strings in the JSON; the code immediately parses
  them with `float`.  We model a monetary string by its exact rational value
  and Python float arithmetic by exact rational arithmetic.
* Python truthiness on optional integers (`if user_data.get("wp_user_id")`)
  is modelled on `Option Nat`: `none` and `some 0` are falsy.
* Timestamps (`st.session_state.get('current_time', 'now()')`) are modelled
  by a `now : Nat` parameter supplied by the caller.
* The Supabase store is a pair of in-memory tables (`wp_users`, `api_usage`);
  `select ... eq` is `List.filter`, `update ... eq` maps over matching rows,
  `insert` appends.  A raised store exception is modelled by a `fail` flag
  consulted before any mutation, matching the `try/except` wrappers that
  convert store failures into `False`/`0` sentinels.
* Python's process-local `hash` on strings is an uninterpreted parameter
  `pyHash : String → Int`.
-/

namespace Syncup

/-- Observable outcome of one HTTP request: non-200 status, raised transport
exception, or decoded 200 body. -/
inductive Resp (α : Type) where
  | err : Resp α
  | exn : Resp α
  | ok (body : α) : Resp α
deriving DecidableEq, Repr

/-- One WooCommerce order line item, as read from the orders JSON.
`product_id = 0` models a missing/falsy `item.get('product_id')`. -/
structure LineItem where
  product_id : Nat
  name : String
  quantity : Nat
  total : ℚ
deriving DecidableEq, Repr

/-- One WooCommerce order as returned by the orders query. -/
structure Order where
  id : Nat
  date_created : String
  line_items : List LineItem
deriving DecidableEq, Repr

/-- One WooCommerce customer record from the customers query. -/
structure Customer where
  id : Nat
  username : Option String
  first_name : String
  last_name : String
deriving DecidableEq, Repr

/-- The Gateway's behaviour for one `get_user_purchased_products` call:
whether `wp_config` is available, the customers-by-email response, and the
completed-orders response for each customer id. -/
structure Gateway where
  config : Bool
  customers : Resp (List Customer)
  orders : Nat → Resp (List Order)

/-- One entry of the deduplicated purchase list built by
`get_user_purchased_products`. -/
structure Purchase where
  product_id : Nat
  name : String
  quantity : Nat
  total : ℚ
  order_id : Nat
  order_date : String
deriving DecidableEq, Repr

/-- The dictionary appended for a line item
(`utils/woocommerce_sync.py:54-61`). -/
def mkPurchase (o : Order) (item : LineItem) : Purchase :=
  { product_id := item.product_id
    name := item.name
    quantity := item.quantity
    total := item.total
    order_id := o.id
    order_date := o.date_created }

/-- One step of the extraction loop body
(`utils/woocommerce_sync.py:50-61`): skip the item if its product id is falsy
or already seen, otherwise record it and append the purchase entry. -/
def extractStep (o : Order) (st : List Nat × List Purchase) (item : LineItem) :
    List Nat × List Purchase :=
  if item.product_id ≠ 0 ∧ item.product_id ∉ st.1 then
    (item.product_id :: st.1, st.2 ++ [mkPurchase o item])
  else st

/-- The nested `for order in orders: for item in order.get('line_items', [])`
loop of `utils/woocommerce_sync.py:49-61`, threading the `product_ids` seen-set
and the `purchased_products` accumulator. -/
def extractPurchases (orders : List Order) : List Purchase :=
  (orders.foldl (fun st o => o.line_items.foldl (extractStep o) st) ([], [])).2

/-- `get_user_purchased_products` (`utils/woocommerce_sync.py:6-67`):
empty list when configuration is missing, when the customers query fails or
matches nobody, when the orders query fails, or when a transport exception is
raised anywhere in the `try` block; otherwise the deduplicated purchase list
extracted from the first matching customer's completed orders. -/
def get_user_purchased_products (gw : Gateway) : List Purchase :=
  if !gw.config then []
  else
    match gw.customers with
    | .err => []
    | .exn => []
    | .ok [] => []
    | .ok (c :: _) =>
      match gw.orders c.id with
      | .err => []
      | .exn => []
      | .ok orders => extractPurchases orders

/-- Permission list for each access level
(`utils/woocommerce_sync.py:287-291, 311`): the `access_levels` mapping,
with `[]` for a level absent from the mapping. -/
def permissions_for (level : String) : List String :=
  if level = "basic" then ["property_search"]
  else if level = "premium" then ["property_search", "analytics", "export"]
  else if level = "enterprise" then
    ["property_search", "analytics", "export", "api_access"]
  else []

/-- Return value of `get_user_product_access_level`.  The early return for an
empty purchase list omits the `product_count` and `total_spent` keys, hence
those fields are `Option`s. -/
structure AccessInfo where
  access_level : String
  products : List Purchase
  product_count : Option Nat
  total_spent : Option ℚ
  permissions : List String
deriving DecidableEq, Repr

/-- The pure tail of `get_user_product_access_level`
(`utils/woocommerce_sync.py:283-312`) as a function of the already-resolved
purchase list: early `none` record for an empty list, otherwise the
count-threshold tier, total spent, and tier permissions. -/
def access_level_of (purchased : List Purchase) : AccessInfo :=
  if purchased.isEmpty then
    { access_level := "none", products := [], product_count := none
      total_spent := none, permissions := [] }
  else
    let product_count := purchased.length
    let total_spent := purchased.foldl (fun acc p => acc + p.total) 0
    let level :=
      if product_count ≥ 5 then "enterprise"
      else if product_count ≥ 3 then "premium"
      else if product_count ≥ 1 then "basic"
      else "none"
    { access_level := level, products := purchased
      product_count := some product_count
      total_spent := some total_spent
      permissions := permissions_for level }

/-- `get_user_product_access_level` (`utils/woocommerce_sync.py:279-312`):
resolve the purchase list through the Gateway, then derive the access record. -/
def get_user_product_access_level (gw : Gateway) : AccessInfo :=
  access_level_of (get_user_purchased_products gw)

/-- Spec-side description of the deduplication ("keeping the first occurrence
of each product id"): walk the flattened id sequence left to right, dropping
falsy ids and ids already kept.  `seen` is the accumulator of already-kept
ids. -/
def firstDedup (seen : List Nat) : List Nat → List Nat
  | [] => []
  | x :: xs =>
    if x ≠ 0 ∧ x ∉ seen then x :: firstDedup (x :: seen) xs
    else firstDedup seen xs

/-- The flattened `(order, line item)` sequence the nested loop traverses. -/
def flatItems (orders : List Order) : List (Order × LineItem) :=
  orders.flatMap fun o => o.line_items.map fun it => (o, it)

/-! ### The Supabase mirror and usage ledger (`utils/database.py`,
`utils/woocommerce_sync.py:223-277`) -/

/-- Python truthiness of an optional integer field read with `.get`:
`None` and `0` are falsy. -/
def truthy : Option Nat → Bool
  | none => false
  | some n => n != 0

/-- The user record assembled by the login paths
(`utils/woocommerce_sync.py:145-155, 201-209`). -/
structure UserData where
  wp_user_id : Option Nat
  wc_customer_id : Option Nat
  email : String
  username : Option String
  display_name : Option String
  wp_token : Option String
  purchased_products : List Purchase
  product_access : Bool
  roles : List String
deriving DecidableEq, Repr

/-- The three possible lookup keys `sync_woo_product_user` can select. -/
inductive SyncKey where
  | userId (n : Nat)
  | custId (n : Nat)
  | email (e : String)
deriving DecidableEq, Repr

/-- The lookup-key selection of `utils/woocommerce_sync.py:248-253`:
external WordPress user id when truthy, else commerce customer id when
truthy, else email. -/
def sync_lookup_key (u : UserData) : SyncKey :=
  if truthy u.wp_user_id then .userId (u.wp_user_id.getD 0)
  else if truthy u.wc_customer_id then .custId (u.wc_customer_id.getD 0)
  else .email u.email

/-- Python `a or b` on an optional integer left operand: the left value when
truthy, otherwise the right operand. -/
def pyOrNat (a : Option Nat) (b : Int) : Int :=
  match a with
  | some n => if n ≠ 0 then (n : Int) else b
  | none => b

/-- The identity key passed to the usage ledger
(`utils/woocommerce_sync.py:270`):
`user_data.get("wp_user_id") or user_data.get("wc_customer_id") or
hash(user_data["email"])`. -/
def usage_user_id (pyHash : String → Int) (u : UserData) : Int :=
  pyOrNat u.wp_user_id (pyOrNat u.wc_customer_id (pyHash u.email))

/-- One row of the `wp_users` table (the columns written by
`sync_woo_product_user`; the serial `id` column is not modelled). -/
structure WpUserRow where
  wp_user_id : Option Nat
  wc_customer_id : Option Nat
  email : String
  username : Option String
  display_name : Option String
  purchased_products : List Purchase
  product_access : Bool
  last_login : Nat
  wp_token : Option String
  roles : List String
  created_at : Option Nat
deriving DecidableEq, Repr

/-- One row of the `api_usage` table. -/
structure UsageRow where
  wp_user_id : Int
  email : String
  queries : Nat
  last_query : Option Nat
  created_at : Nat
deriving DecidableEq, Repr

/-- The Supabase store: the two tables this core writes. -/
structure Store where
  wp_users : List WpUserRow
  api_usage : List UsageRow
deriving DecidableEq, Repr

/-- Whether a `wp_users` row matches the selected `eq` filter. -/
def rowMatches (k : SyncKey) (r : WpUserRow) : Bool :=
  match k with
  | .userId n => r.wp_user_id == some n
  | .custId n => r.wc_customer_id == some n
  | .email e => r.email == e

/-- The `supabase_data` payload of `utils/woocommerce_sync.py:230-243`
(no `created_at`: that key is only added on the insert path). -/
def mkSupabaseData (now : Nat) (u : UserData) : WpUserRow :=
  { wp_user_id := u.wp_user_id
    wc_customer_id := u.wc_customer_id
    email := u.email
    username := u.username
    display_name := u.display_name
    purchased_products := u.purchased_products
    product_access := u.product_access
    last_login := now
    wp_token := u.wp_token
    roles := u.roles
    created_at := none }

/-- Effect of `update(supabase_data)` on one matching row: every payload
column is overwritten; `created_at` is not in the payload and is kept. -/
def updateRow (payload r : WpUserRow) : WpUserRow :=
  { payload with created_at := r.created_at }

/-- `initialize_user_usage` (`utils/database.py:4-26`): `False` when the
store client is unavailable or the store call raises; otherwise insert a
fresh zero-counter row only when no row matches the identity key. -/
def initialize_user_usage (fail : Bool) (now : Nat) (uid : Int) (email : String) :
    Option Store → Option Store × Bool
  | none => (none, false)
  | some s =>
    if fail then (some s, false)
    else if (s.api_usage.filter fun r => r.wp_user_id == uid).isEmpty then
      (some { s with api_usage := s.api_usage ++
        [{ wp_user_id := uid, email := email, queries := 0
           last_query := none, created_at := now }] }, true)
    else (some s, true)

/-- `get_user_usage` (`utils/database.py:28-43`): `0` when the store client
is unavailable or the select raises; the stored counter when a row exists;
otherwise create the row via `initialize_user_usage` and return `0`. -/
def get_user_usage (fail : Bool) (now : Nat) (uid : Int) (email : String) :
    Option Store → Option Store × Nat
  | none => (none, 0)
  | some s =>
    if fail then (some s, 0)
    else
      match s.api_usage.filter fun r => r.wp_user_id == uid with
      | [] => ((initialize_user_usage fail now uid email (some s)).1, 0)
      | r :: _ => (some s, r.queries)

/-- `increment_usage` (`utils/database.py:45-60`): read the current counter
(through `get_user_usage`, which swallows read failures), then update every
row matching the key to `current + 1` with a fresh last-query timestamp. -/
def increment_usage (fail : Bool) (now : Nat) (uid : Int) (email : String) :
    Option Store → Option Store × Bool
  | none => (none, false)
  | some s =>
    match get_user_usage fail now uid email (some s) with
    | (none, _) => (none, false)
    | (some s₁, current) =>
      (some { s₁ with api_usage := s₁.api_usage.map fun r =>
        if r.wp_user_id == uid then
          { r with queries := current + 1, last_query := some now }
        else r }, true)

/-- `check_usage_limit` (`utils/database.py:100-103`): admit iff the current
counter is strictly below the limit (default 30 at the call sites). -/
def check_usage_limit (fail : Bool) (now : Nat) (uid : Int) (email : String)
    (limit : Nat) (sb : Option Store) : Option Store × Bool :=
  match get_user_usage fail now uid email sb with
  | (sb', current) => (sb', decide (current < limit))

/-- `sync_woo_product_user` (`utils/woocommerce_sync.py:223-277`): `False`
when the store client is unavailable or a store call raises (modelled by
`fail`, consulted before any mutation); otherwise look the user up by the
priority key, update in place if found, insert with a creation timestamp if
not, then initialise usage tracking and return `True`. -/
def sync_woo_product_user (pyHash : String → Int) (fail : Bool) (now : Nat)
    (u : UserData) : Option Store → Option Store × Bool
  | none => (none, false)
  | some s =>
    if fail then (some s, false)
    else
      let payload := mkSupabaseData now u
      let k := sync_lookup_key u
      let users' :=
        if (s.wp_users.filter (rowMatches k)).isEmpty then
          s.wp_users ++ [{ payload with created_at := some now }]
        else
          s.wp_users.map fun r => if rowMatches k r then updateRow payload r else r
      let s₁ : Store := { s with wp_users := users' }
      let uid := usage_user_id pyHash u
      ((initialize_user_usage false now uid u.email (some s₁)).1, true)

/-! ### Login orchestration (`utils/woocommerce_sync.py:105-221`,
`utils/auth.py:12-31`) and token validation (`utils/wordpress_auth.py:182-196`) -/

/-- Body of a successful JWT token-issue response. -/
structure TokenData where
  token : String
  user_nicename : Option String
deriving DecidableEq, Repr

/-- Body of a successful `/wp/v2/users/me` profile response. -/
structure WpUser where
  id : Option Nat
  email : Option String
  username : Option String
  name : Option String
  roles : List String
deriving DecidableEq, Repr

/-- The Gateway's behaviour across one login attempt: configuration
availability, the token-issue response, the own-profile response, the
behaviour backing `get_user_purchased_products`, and the separate
customers query made by the customer-only fallback path. -/
structure LoginEnv where
  config : Bool
  tokenResp : Resp TokenData
  meResp : Resp WpUser
  purchases_gw : Gateway
  customersResp : Resp (List Customer)

/-- `woo_customer_login` (`utils/woocommerce_sync.py:175-221`): deny when
there are no purchases; otherwise look the customer up, assemble a
customer-keyed user record, sync it, and return it only when the sync
succeeded.  Every failure branch (non-200, empty result, sync failure,
raised exception) returns no user record. -/
def woo_customer_login (pyHash : String → Int) (fail : Bool) (now : Nat)
    (inputEmail : String) (env : LoginEnv) (sb : Option Store) :
    Option UserData × Option Store :=
  if !env.config then (none, sb)
  else
    let purchased := get_user_purchased_products env.purchases_gw
    if purchased.isEmpty then (none, sb)
    else
      match env.customersResp with
      | .err => (none, sb)
      | .exn => (none, sb)
      | .ok [] => (none, sb)
      | .ok (c :: _) =>
        let dn := (c.first_name ++ " " ++ c.last_name).trim
        let u : UserData :=
          { wp_user_id := none
            wc_customer_id := some c.id
            email := inputEmail
            username := some (c.username.getD ((inputEmail.splitOn "@").headD ""))
            display_name := some (if dn = "" then inputEmail else dn)
            wp_token := none
            purchased_products := purchased
            product_access := true
            roles := [] }
        match sync_woo_product_user pyHash fail now u sb with
        | (sb', true) => (some u, sb')
        | (sb', false) => (none, sb')

/-- `woo_product_login` (`utils/woocommerce_sync.py:105-173`): authenticate
against the WordPress JWT endpoint; on a non-200 status fall back to the
customer-only path; on success fetch the profile, resolve purchases for the
profile email, deny when the purchase list is empty, otherwise assemble the
user record, sync it, and return it only when the sync succeeded.  A raised
transport exception yields no user record. -/
def woo_product_login (pyHash : String → Int) (fail : Bool) (now : Nat)
    (inputEmail : String) (env : LoginEnv) (sb : Option Store) :
    Option UserData × Option Store :=
  if !env.config then (none, sb)
  else
    match env.tokenResp with
    | .exn => (none, sb)
    | .err => woo_customer_login pyHash fail now inputEmail env sb
    | .ok td =>
      match env.meResp with
      | .err => (none, sb)
      | .exn => (none, sb)
      | .ok wp_user =>
        let user_email := wp_user.email.getD inputEmail
        let purchased := get_user_purchased_products env.purchases_gw
        if purchased.isEmpty then (none, sb)
        else
          let u : UserData :=
            { wp_user_id := wp_user.id
              wc_customer_id := none
              email := user_email
              username :=
                match wp_user.username with
                | some s => some s
                | none => td.user_nicename
              display_name := wp_user.name
              wp_token := some td.token
              purchased_products := purchased
              product_access := true
              roles := wp_user.roles }
          match sync_woo_product_user pyHash fail now u sb with
          | (sb', true) => (some u, sb')
          | (sb', false) => (none, sb')

/-- The session user object `utils/auth.py:18-25` builds on success. -/
structure SessionUser where
  id : Int
  email : String
  username : Option String
  display_name : Option String
  purchased_products : List Purchase
  product_access : Bool
deriving DecidableEq, Repr

/-- The `st.session_state` fields `utils/auth.py` manages: `user` and
`access_token`, both initialised to `None`. -/
structure AuthSession where
  user : Option SessionUser
  access_token : Option String
deriving DecidableEq, Repr

/-- `login` (`utils/auth.py:12-31`): run `woo_product_login`; on success
store the session user with its priority id and the access token
(`'woo_access'` when the record carries no WordPress token); on failure
leave the session state untouched and return no record. -/
def login (pyHash : String → Int) (fail : Bool) (now : Nat)
    (inputEmail : String) (env : LoginEnv) (sb : Option Store)
    (sess : AuthSession) : Option UserData × Option Store × AuthSession :=
  match woo_product_login pyHash fail now inputEmail env sb with
  | (some u, sb') =>
    let su : SessionUser :=
      { id := pyOrNat u.wp_user_id (pyOrNat u.wc_customer_id (pyHash inputEmail))
        email := u.email
        username := u.username
        display_name := u.display_name
        purchased_products := u.purchased_products
        product_access := u.product_access }
    (some u, sb', { user := some su, access_token := some (u.wp_token.getD "woo_access") })
  | (none, sb') => (none, sb', sess)

/-- `validate_wp_token` (`utils/wordpress_auth.py:182-196`): `False` when
configuration is missing or the token is falsy (empty); otherwise `True`
exactly when the introspection call returns status 200, with any raised
exception swallowed into `False`. -/
def validate_wp_token (config : Bool) (token : String) (resp : Resp Unit) : Bool :=
  if !config || token == "" then false
  else
    match resp with
    | .ok _ => true
    | .err => false
    | .exn => false

/-- The spec's Session State (§4.5): authenticated flag, identity-or-absent,
token-or-absent. -/
structure SpecSession where
  authenticated : Bool
  identity : Option SessionUser
  token : Option String
deriving DecidableEq, Repr

/-- The cleared (unauthenticated) Session State. -/
def emptySession : SpecSession :=
  { authenticated := false, identity := none, token := none }

/-- Modelled from the spec: `check_authentication` is imported by `app.py`
and called by `require_auth` in `utils/auth.py` but its definition is not
present under `src/`.  Per spec §4.2, "a session is considered valid only if
a later validation call against the Gateway's token-introspection endpoint
succeeds; invalid/expired tokens force Session State back to Unauthenticated
(logout semantics), discarding token and identity", where the introspection
call is the source function `validate_wp_token`. -/
def check_authentication (config : Bool) (resp : Resp Unit) (s : SpecSession) :
    Bool × SpecSession :=
  if s.authenticated && validate_wp_token config (s.token.getD "") resp then
    (true, s)
  else
    (false, emptySession)

/-! ### Helper lemmas -/

/-- Rank of an access tier, for stating monotonicity. -/
def tierRank (level : String) : Nat :=
  if level = "enterprise" then 3
  else if level = "premium" then 2
  else if level = "basic" then 1
  else 0

/-- The access level computed by `access_level_of` is the count-threshold
chain of `utils/woocommerce_sync.py:297-304`, with the empty-list early
return collapsing into the `count = 0` case. -/
theorem access_level_of_level (l : List Purchase) :
    (access_level_of l).access_level =
      if 5 ≤ l.length then "enterprise"
      else if 3 ≤ l.length then "premium"
      else if 1 ≤ l.length then "basic"
      else "none" := by
  unfold access_level_of
  by_cases h : l.isEmpty
  · have hl : l.length = 0 := by
      simp [List.isEmpty_iff.mp h]
    rw [if_pos h, hl]
    simp
  · have hne : l ≠ [] := by simpa using List.isEmpty_iff.not.mp h
    have h1 : 1 ≤ l.length := List.length_pos.mpr hne
    rw [if_neg h]

/-- The threshold chain is monotone in the count under `tierRank`. -/
theorem tierRank_thresh_mono {m n : Nat} (h : m ≤ n) :
    tierRank (if 5 ≤ m then "enterprise" else if 3 ≤ m then "premium"
      else if 1 ≤ m then "basic" else "none") ≤
    tierRank (if 5 ≤ n then "enterprise" else if 3 ≤ n then "premium"
      else if 1 ≤ n then "basic" else "none") := by
  by_cases h5 : 5 ≤ m
  · rw [if_pos h5, if_pos (le_trans h5 h)]
  · rw [if_neg h5]
    by_cases h3 : 3 ≤ m
    · rw [if_pos h3]
      by_cases h5n : 5 ≤ n
      · rw [if_pos h5n]; decide
      · rw [if_neg h5n, if_pos (le_trans h3 h)]
    · rw [if_neg h3]
      by_cases h1 : 1 ≤ m
      · rw [if_pos h1]
        by_cases h5n : 5 ≤ n
        · rw [if_pos h5n]; decide
        · rw [if_neg h5n]
          by_cases h3n : 3 ≤ n
          · rw [if_pos h3n]; decide
          · rw [if_neg h3n, if_pos (le_trans h1 h)]
      · rw [if_neg h1, show tierRank "none" = 0 from rfl]
        exact Nat.zero_le _

/-- The nested loop over orders and line items equals one fold over the
flattened `(order, item)` sequence. -/
theorem foldl_orders_eq_foldl_flatItems (orders : List Order)
    (st : List Nat × List Purchase) :
    orders.foldl (fun st o => o.line_items.foldl (extractStep o) st) st =
      (flatItems orders).foldl (fun st oi => extractStep oi.1 st oi.2) st := by
  induction orders generalizing st with
  | nil => simp [flatItems]
  | cons o os ih =>
    rw [List.foldl_cons, ih]
    show _ = (flatItems (o :: os)).foldl _ st
    rw [show flatItems (o :: os) =
          (o.line_items.map fun it => (o, it)) ++ flatItems os from by
        simp [flatItems], List.foldl_append, List.foldl_map]

/-- The purchase accumulator's product-id trace: folding the extraction step
over a flattened item sequence extends the accumulator ids by exactly the
first-occurrence deduplication of the incoming ids, relative to the seen-set. -/
theorem foldl_extractStep_ids (items : List (Order × LineItem))
    (seen : List Nat) (acc : List Purchase) :
    ((items.foldl (fun st oi => extractStep oi.1 st oi.2) (seen, acc)).2).map
        (fun p => p.product_id) =
      acc.map (fun p => p.product_id) ++
        firstDedup seen (items.map fun oi => oi.2.product_id) := by
  induction items generalizing seen acc with
  | nil => simp [firstDedup]
  | cons oi rest ih =>
    rw [List.foldl_cons, List.map_cons]
    show ((rest.foldl _ (extractStep oi.1 (seen, acc) oi.2)).2).map _ = _
    by_cases h : oi.2.product_id ≠ 0 ∧ oi.2.product_id ∉ seen
    · rw [show extractStep oi.1 (seen, acc) oi.2 =
            (oi.2.product_id :: seen, acc ++ [mkPurchase oi.1 oi.2]) from by
          simp [extractStep, h]]
      rw [ih, firstDedup, if_pos h]
      simp [mkPurchase]
    · rw [show extractStep oi.1 (seen, acc) oi.2 = (seen, acc) from by
          simp [extractStep, h]]
      rw [ih, firstDedup, if_neg h]

/-- `get_user_purchased_products` keeps, in order, exactly the first
occurrence of each non-falsy product id among the flattened line items. -/
theorem extractPurchases_ids (orders : List Order) :
    (extractPurchases orders).map (fun p => p.product_id) =
      firstDedup [] ((flatItems orders).map fun oi => oi.2.product_id) := by
  unfold extractPurchases
  rw [foldl_orders_eq_foldl_flatItems, foldl_extractStep_ids]
  simp

/-- `firstDedup` produces no duplicates and avoids the seen-set. -/
theorem firstDedup_nodup (l : List Nat) (seen : List Nat) :
    (firstDedup seen l).Nodup ∧ ∀ x ∈ firstDedup seen l, x ∉ seen := by
  induction l generalizing seen with
  | nil => simp [firstDedup]
  | cons x xs ih =>
    rw [firstDedup]
    by_cases h : x ≠ 0 ∧ x ∉ seen
    · rw [if_pos h]
      obtain ⟨ihn, ihs⟩ := ih (x :: seen)
      refine ⟨List.nodup_cons.mpr ⟨fun hx => ?_, ihn⟩, fun y hy hys => ?_⟩
      · exact (ihs x hx) (List.mem_cons_self x seen)
      · rcases List.mem_cons.mp hy with rfl | hy'
        · exact h.2 hys
        · exact (ihs y hy') (List.mem_cons_of_mem x hys)
    · rw [if_neg h]; exact ih seen

/-- Folding purchase totals equals summing the mapped totals. -/
theorem foldl_total_eq_sum (l : List Purchase) (a : ℚ) :
    l.foldl (fun acc p => acc + p.total) a = a + (l.map fun p => p.total).sum := by
  induction l generalizing a with
  | nil => simp
  | cons p rest ih => rw [List.foldl_cons, ih, List.map_cons, List.sum_cons]; ring

/-! ### Claim theorems -/

/-- C1: for every purchase list resolved through the Gateway, the access tier
returned by `get_user_product_access_level` is determined by the purchase
count alone — count 0 yields `"none"`, count 1 or 2 yields `"basic"`, count
3 or 4 yields `"premium"`, count 5 or more yields `"enterprise"` — and hence
the tier is monotone in the purchase count under `tierRank`. -/
theorem C1_tier_determined_by_count (gw₁ gw₂ : Gateway) :
    (((get_user_purchased_products gw₁).length = 0 →
        (get_user_product_access_level gw₁).access_level = "none") ∧
     (1 ≤ (get_user_purchased_products gw₁).length →
        (get_user_purchased_products gw₁).length ≤ 2 →
        (get_user_product_access_level gw₁).access_level = "basic") ∧
     (3 ≤ (get_user_purchased_products gw₁).length →
        (get_user_purchased_products gw₁).length ≤ 4 →
        (get_user_product_access_level gw₁).access_level = "premium") ∧
     (5 ≤ (get_user_purchased_products gw₁).length →
        (get_user_product_access_level gw₁).access_level = "enterprise")) ∧
    ((get_user_purchased_products gw₁).length =
        (get_user_purchased_products gw₂).length →
      (get_user_product_access_level gw₁).access_level =
        (get_user_product_access_level gw₂).access_level) ∧
    ((get_user_purchased_products gw₁).length ≤
        (get_user_purchased_products gw₂).length →
      tierRank (get_user_product_access_level gw₁).access_level ≤
        tierRank (get_user_product_access_level gw₂).access_level) := by
  unfold get_user_product_access_level
  rw [access_level_of_level, access_level_of_level]
  refine ⟨⟨fun h0 => ?_, fun ha hb => ?_, fun ha hb => ?_, fun ha => ?_⟩,
    fun he => by rw [he], fun hle => tierRank_thresh_mono hle⟩
  · rw [if_neg (by omega), if_neg (by omega), if_neg (by omega)]
  · rw [if_neg (by omega), if_neg (by omega), if_pos (by omega)]
  · rw [if_neg (by omega), if_pos (by omega)]
  · rw [if_pos (by omega)]

/-- A concrete line item for witnesses. -/
def exItem (pid : Nat) (nm : String) (t : ℚ) : LineItem :=
  { product_id := pid, name := nm, quantity := 1, total := t }

/-- A concrete customer record for witnesses. -/
def exCustomer : Customer :=
  { id := 7, username := none, first_name := "A", last_name := "B" }

/-- A completed order with three distinct products, for witnesses. -/
def orderThree : Order :=
  { id := 100
    date_created := "2024-01-01"
    line_items := [exItem 1 "a" 10, exItem 2 "b" 11, exItem 3 "c" 12] }

/-- A completed order with one product, for witnesses. -/
def orderOne : Order :=
  { id := 101
    date_created := "2024-01-02"
    line_items := [exItem 1 "a" 10] }

/-- A Gateway on which the resolver sees exactly three distinct purchases. -/
def gwThree : Gateway :=
  { config := true
    customers := .ok [exCustomer]
    orders := fun _ => .ok [orderThree] }

/-- A Gateway on which the resolver sees exactly one purchase. -/
def gwOne : Gateway :=
  { config := true
    customers := .ok [exCustomer]
    orders := fun _ => .ok [orderOne] }

/-- C1 witness: three purchases resolve to the premium tier, and the tier of
one purchase is no higher than the tier of three. -/
theorem C1_tier_determined_by_count_witness :
    (get_user_product_access_level gwThree).access_level = "premium" ∧
    tierRank (get_user_product_access_level gwOne).access_level ≤
      tierRank (get_user_product_access_level gwThree).access_level :=
  ⟨(C1_tier_determined_by_count gwThree gwOne).1.2.2.1 (of_decide_eq_true rfl)
      (of_decide_eq_true rfl),
   (C1_tier_determined_by_count gwOne gwThree).2.2 (of_decide_eq_true rfl)⟩

/-- The more recent order of the C2 scenario, carrying product id 1. -/
def orderC2a : Order :=
  { id := 101
    date_created := "2024-02-02"
    line_items := [{ product_id := 1, name := "Widget", quantity := 1, total := 20 }] }

/-- The older order of the C2 scenario, repeating product id 1 and adding
product id 2. -/
def orderC2b : Order :=
  { id := 100
    date_created := "2024-01-01"
    line_items := [{ product_id := 1, name := "Widget", quantity := 1, total := 20 },
                   { product_id := 2, name := "Gadget", quantity := 1, total := 15 }] }

/-- The Gateway serving the C2 scenario's line items
`[(1, 20.00), (1, 20.00), (2, 15.00)]` across two completed orders. -/
def gwC2 : Gateway :=
  { config := true
    customers := .ok [exCustomer]
    orders := fun _ => .ok [orderC2a, orderC2b] }

/-- An order with two line items sharing a product id but differing totals,
to exercise which occurrence the deduplication keeps. -/
def orderDup : Order :=
  { id := 200
    date_created := "2024-03-03"
    line_items := [{ product_id := 1, name := "First", quantity := 1, total := 20 },
                   { product_id := 1, name := "Second", quantity := 1, total := 99 }] }

/-- C2: the resolver flattens line items into a list deduplicated by product
id keeping only the first occurrence of each id, total spent is the sum of
the totals of the kept entries only, and on the scenario line items
`[(id 1, 20.00), (id 1, 20.00), (id 2, 15.00)]` the purchase list has length
2, total spent is 35.00, and the tier is basic. -/
theorem C2_dedup_keeps_first_and_totals :
    (∀ orders : List Order,
      (extractPurchases orders).map (fun p => p.product_id) =
        firstDedup [] ((flatItems orders).map fun oi => oi.2.product_id)) ∧
    (∀ orders : List Order,
      ((extractPurchases orders).map (fun p => p.product_id)).Nodup) ∧
    (∀ gw : Gateway,
      (get_user_product_access_level gw).total_spent =
        if (get_user_purchased_products gw).isEmpty then none
        else some ((get_user_purchased_products gw).map (fun p => p.total)).sum) ∧
    ((get_user_purchased_products gwC2).length = 2 ∧
     (get_user_product_access_level gwC2).total_spent = some 35 ∧
     (get_user_product_access_level gwC2).access_level = "basic") ∧
    (extractPurchases [orderDup]).map (fun p => p.total) = [20] := by
  refine ⟨extractPurchases_ids, fun orders => ?_, fun gw => ?_, ⟨?_, ?_, ?_⟩, ?_⟩
  · rw [extractPurchases_ids]
    exact (firstDedup_nodup _ []).1
  · unfold get_user_product_access_level access_level_of
    by_cases h : (get_user_purchased_products gw).isEmpty
    · rw [if_pos h, if_pos h]
    · rw [if_neg h, if_neg h]
      show some ((get_user_purchased_products gw).foldl (fun acc p => acc + p.total) 0) = _
      rw [foldl_total_eq_sum, zero_add]
  · rfl
  · show some ((0 : ℚ) + 20 + 15) = some 35
    norm_num
  · rfl
  · show [(20 : ℚ)] = [20]
    rfl

/-- C4: for every Gateway failure mode — missing configuration, non-200 or
raised exception on the customers query, no matching customer, non-200 or
raised exception on the orders query — `get_user_purchased_products` returns
the empty purchase list; being a total function into `List Purchase`, it
propagates no exception to its caller. -/
theorem C4_gateway_failure_yields_empty (cs : Resp (List Customer))
    (ods : Nat → Resp (List Order)) (gw : Gateway) :
    (get_user_purchased_products { config := false, customers := cs, orders := ods } = []) ∧
    (get_user_purchased_products { config := true, customers := .err, orders := ods } = []) ∧
    (get_user_purchased_products { config := true, customers := .exn, orders := ods } = []) ∧
    (get_user_purchased_products { config := true, customers := .ok [], orders := ods } = []) ∧
    (∀ c rest, gw.customers = .ok (c :: rest) →
      gw.orders c.id = .err ∨ gw.orders c.id = .exn →
      get_user_purchased_products gw = []) := by
  refine ⟨rfl, rfl, rfl, rfl, fun c rest hc ho => ?_⟩
  unfold get_user_purchased_products
  rcases ho with ho | ho <;> simp [hc, ho]

/-- C4 witness: a concrete Gateway whose orders query returns a non-200
status yields the empty purchase list. -/
theorem C4_gateway_failure_yields_empty_witness :
    get_user_purchased_products
      { config := true, customers := .ok [exCustomer], orders := fun _ => .err } = [] :=
  (C4_gateway_failure_yields_empty .err (fun _ => .err)
      { config := true, customers := .ok [exCustomer], orders := fun _ => .err }).2.2.2.2
    exCustomer [] rfl (Or.inl rfl)

/-- C3: when the Gateway authenticates the credentials (token issue and
profile fetch both succeed) but the resolved purchase list is empty,
`woo_product_login` returns no user record and `login` leaves the session
state and the store untouched: no usage record is created and no identity
mirror write happens. -/
theorem C3_empty_purchases_denied (pyHash : String → Int) (fail : Bool)
    (now : Nat) (inputEmail : String) (td : TokenData) (wp_user : WpUser)
    (pgw : Gateway) (cresp : Resp (List Customer)) (sb : Option Store)
    (sess : AuthSession)
    (hp : get_user_purchased_products pgw = []) :
    (woo_product_login pyHash fail now inputEmail
        { config := true, tokenResp := .ok td, meResp := .ok wp_user
          purchases_gw := pgw, customersResp := cresp } sb = (none, sb)) ∧
    (login pyHash fail now inputEmail
        { config := true, tokenResp := .ok td, meResp := .ok wp_user
          purchases_gw := pgw, customersResp := cresp } sb sess = (none, sb, sess)) := by
  have h1 : woo_product_login pyHash fail now inputEmail
      { config := true, tokenResp := .ok td, meResp := .ok wp_user
        purchases_gw := pgw, customersResp := cresp } sb = (none, sb) := by
    unfold woo_product_login
    simp [hp]
  exact ⟨h1, by unfold login; rw [h1]⟩

/-- C3 witness: concrete authenticated login against a Gateway with no
matching commerce customer (hence an empty purchase list) is denied with the
store and session untouched. -/
theorem C3_empty_purchases_denied_witness :
    login (fun _ => 0) false 5 "u@e.com"
      { config := true
        tokenResp := .ok { token := "tok", user_nicename := none }
        meResp := .ok { id := some 3, email := some "u@e.com", username := some "u"
                        name := some "U", roles := [] }
        purchases_gw := { config := true, customers := .ok [], orders := fun _ => .err }
        customersResp := .ok [] }
      (some { wp_users := [], api_usage := [] })
      { user := none, access_token := none } =
    (none, some { wp_users := [], api_usage := [] },
      { user := none, access_token := none }) :=
  (C3_empty_purchases_denied (fun _ => 0) false 5 "u@e.com"
      { token := "tok", user_nicename := none }
      { id := some 3, email := some "u@e.com", username := some "u"
        name := some "U", roles := [] }
      { config := true, customers := .ok [], orders := fun _ => .err }
      (.ok []) (some { wp_users := [], api_usage := [] })
      { user := none, access_token := none } rfl).2

/-- The zero-counter row `initialize_user_usage` inserts on first contact. -/
def freshUsageRow (now : Nat) (uid : Int) (email : String) : UsageRow :=
  { wp_user_id := uid, email := email, queries := 0
    last_query := none, created_at := now }

/-- Reduction of `initialize_user_usage` on an available store. -/
theorem initialize_result (fail : Bool) (now : Nat) (uid : Int) (email : String)
    (s : Store) :
    initialize_user_usage fail now uid email (some s) =
      if fail then (some s, false)
      else if (s.api_usage.filter fun r => r.wp_user_id == uid).isEmpty then
        (some { s with api_usage := s.api_usage ++ [freshUsageRow now uid email] },
          true)
      else (some s, true) := rfl

/-- `initialize_user_usage` never touches the `wp_users` table. -/
theorem initialize_preserves_wp_users (fail : Bool) (now : Nat) (uid : Int)
    (email : String) (s : Store) :
    ∃ s', (initialize_user_usage fail now uid email (some s)).1 = some s' ∧
      s'.wp_users = s.wp_users := by
  rw [initialize_result]
  cases fail with
  | true => exact ⟨s, rfl, rfl⟩
  | false =>
    by_cases he : (s.api_usage.filter fun r => r.wp_user_id == uid).isEmpty = true
    · rw [if_neg Bool.false_ne_true, if_pos he]
      exact ⟨_, rfl, rfl⟩
    · rw [if_neg Bool.false_ne_true, if_neg he]
      exact ⟨s, rfl, rfl⟩

/-- An updated row still matches the lookup key it was selected by: the
update payload carries the same identifying fields the key was derived from. -/
theorem rowMatches_updateRow (now : Nat) (u : UserData) (r : WpUserRow) :
    rowMatches (sync_lookup_key u) (updateRow (mkSupabaseData now u) r) = true := by
  unfold sync_lookup_key
  cases hw : u.wp_user_id with
  | some n =>
    by_cases hn : n = 0
    · subst hn
      rw [show truthy (some 0) = false from rfl]
      cases hc : u.wc_customer_id with
      | some m =>
        by_cases hm : m = 0
        · subst hm
          simp [truthy, rowMatches, updateRow, mkSupabaseData]
        · simp [truthy, hm, rowMatches, updateRow, mkSupabaseData, hc]
      | none => simp [truthy, rowMatches, updateRow, mkSupabaseData]
    · simp [truthy, hn, rowMatches, updateRow, mkSupabaseData, hw]
  | none =>
    rw [show truthy none = false from rfl]
    cases hc : u.wc_customer_id with
    | some m =>
      by_cases hm : m = 0
      · subst hm
        simp [truthy, rowMatches, updateRow, mkSupabaseData]
      · simp [truthy, hm, rowMatches, updateRow, mkSupabaseData, hc]
    | none => simp [truthy, rowMatches, updateRow, mkSupabaseData]

/-- `sync_woo_product_user` on an available, non-failing store: upsert the
`wp_users` row keyed by the priority lookup key, then initialise usage
tracking, and report success. -/
theorem sync_reduce (pyHash : String → Int) (now : Nat) (u : UserData) (s : Store) :
    sync_woo_product_user pyHash false now u (some s) =
      ((initialize_user_usage false now (usage_user_id pyHash u) u.email
          (some { s with wp_users :=
            if (s.wp_users.filter (rowMatches (sync_lookup_key u))).isEmpty then
              s.wp_users ++ [{ mkSupabaseData now u with created_at := some now }]
            else s.wp_users.map fun r =>
              if rowMatches (sync_lookup_key u) r then
                updateRow (mkSupabaseData now u) r else r })).1, true) := rfl

/-- C5: `sync_woo_product_user` looks up the existing record by WordPress
user id when truthy, else commerce customer id when truthy, else email; if a
record is found it is updated in place under the same key with no second
record created, otherwise one new record is inserted with a creation
timestamp; the call returns a boolean, returning `false` on an unavailable
or failing store instead of raising. -/
theorem C5_upsert_identity (pyHash : String → Int) (now : Nat) (u : UserData)
    (s : Store) :
    (sync_woo_product_user pyHash false now u none = (none, false)) ∧
    (sync_woo_product_user pyHash true now u (some s) = (some s, false)) ∧
    ((truthy u.wp_user_id = true →
        sync_lookup_key u = .userId (u.wp_user_id.getD 0)) ∧
     (truthy u.wp_user_id = false → truthy u.wc_customer_id = true →
        sync_lookup_key u = .custId (u.wc_customer_id.getD 0)) ∧
     (truthy u.wp_user_id = false → truthy u.wc_customer_id = false →
        sync_lookup_key u = .email u.email)) ∧
    ((sync_woo_product_user pyHash false now u (some s)).2 = true) ∧
    ((s.wp_users.filter (rowMatches (sync_lookup_key u))).isEmpty = false →
      ∃ s', (sync_woo_product_user pyHash false now u (some s)).1 = some s' ∧
        s'.wp_users = (s.wp_users.map fun r =>
          if rowMatches (sync_lookup_key u) r then
            updateRow (mkSupabaseData now u) r else r) ∧
        s'.wp_users.length = s.wp_users.length ∧
        ∀ r' : WpUserRow,
          rowMatches (sync_lookup_key u) (updateRow (mkSupabaseData now u) r') = true) ∧
    ((s.wp_users.filter (rowMatches (sync_lookup_key u))).isEmpty = true →
      ∃ s', (sync_woo_product_user pyHash false now u (some s)).1 = some s' ∧
        s'.wp_users = s.wp_users ++
          [{ mkSupabaseData now u with created_at := some now }] ∧
        ({ mkSupabaseData now u with created_at := some now } : WpUserRow).created_at
          = some now) := by
  refine ⟨rfl, rfl, ⟨fun h => ?_, fun h1 h2 => ?_, fun h1 h2 => ?_⟩, rfl,
    fun hne => ?_, fun hem => ?_⟩
  · unfold sync_lookup_key
    rw [if_pos h]
  · unfold sync_lookup_key
    rw [if_neg (by simp [h1]), if_pos h2]
  · unfold sync_lookup_key
    rw [if_neg (by simp [h1]), if_neg (by simp [h2])]
  · obtain ⟨s', hs', hw⟩ := initialize_preserves_wp_users false now
      (usage_user_id pyHash u) u.email
      { s with wp_users := s.wp_users.map fun r =>
          if rowMatches (sync_lookup_key u) r then
            updateRow (mkSupabaseData now u) r else r }
    refine ⟨s', ?_, hw, by rw [hw]; exact List.length_map _ _,
      fun r' => rowMatches_updateRow now u r'⟩
    rw [sync_reduce]
    rw [show (if (s.wp_users.filter (rowMatches (sync_lookup_key u))).isEmpty then
          s.wp_users ++ [{ mkSupabaseData now u with created_at := some now }]
        else s.wp_users.map fun r =>
          if rowMatches (sync_lookup_key u) r then
            updateRow (mkSupabaseData now u) r else r) =
        s.wp_users.map fun r =>
          if rowMatches (sync_lookup_key u) r then
            updateRow (mkSupabaseData now u) r else r from by rw [hne]; rfl]
    exact hs'
  · obtain ⟨s', hs', hw⟩ := initialize_preserves_wp_users false now
      (usage_user_id pyHash u) u.email
      { s with wp_users := s.wp_users ++
          [{ mkSupabaseData now u with created_at := some now }] }
    refine ⟨s', ?_, hw, rfl⟩
    rw [sync_reduce]
    rw [show (if (s.wp_users.filter (rowMatches (sync_lookup_key u))).isEmpty then
          s.wp_users ++ [{ mkSupabaseData now u with created_at := some now }]
        else s.wp_users.map fun r =>
          if rowMatches (sync_lookup_key u) r then
            updateRow (mkSupabaseData now u) r else r) =
        s.wp_users ++ [{ mkSupabaseData now u with created_at := some now }] from by
      rw [hem]; rfl]
    exact hs'

/-- A concrete user record carrying a WordPress user id, for witnesses. -/
def exUser : UserData :=
  { wp_user_id := some 3, wc_customer_id := none, email := "u@e.com"
    username := some "u", display_name := some "U", wp_token := some "tok"
    purchased_products := [], product_access := true, roles := [] }

/-- A stored mirror row matching `exUser` by WordPress user id. -/
def exRow : WpUserRow :=
  { wp_user_id := some 3, wc_customer_id := none, email := "old@e.com"
    username := some "old", display_name := some "Old"
    purchased_products := [], product_access := false, last_login := 0
    wp_token := none, roles := [], created_at := some 0 }

/-- A store already holding `exRow`. -/
def exStore : Store := { wp_users := [exRow], api_usage := [] }

/-- C5 witness: on a store holding a matching row the sync updates in place
(same row count), and on an empty store it inserts one row with a creation
timestamp. -/
theorem C5_upsert_identity_witness :
    (∃ s', (sync_woo_product_user (fun _ => 0) false 2 exUser (some exStore)).1 = some s' ∧
      s'.wp_users = (exStore.wp_users.map fun r =>
        if rowMatches (sync_lookup_key exUser) r then
          updateRow (mkSupabaseData 2 exUser) r else r) ∧
      s'.wp_users.length = exStore.wp_users.length ∧
      ∀ r' : WpUserRow,
        rowMatches (sync_lookup_key exUser) (updateRow (mkSupabaseData 2 exUser) r') = true) ∧
    (∃ s', (sync_woo_product_user (fun _ => 0) false 2 exUser
        (some { wp_users := [], api_usage := [] })).1 = some s' ∧
      s'.wp_users = ([] : List WpUserRow) ++
        [{ mkSupabaseData 2 exUser with created_at := some 2 }] ∧
      ({ mkSupabaseData 2 exUser with created_at := some 2 } : WpUserRow).created_at
        = some 2) :=
  ⟨(C5_upsert_identity (fun _ => 0) 2 exUser exStore).2.2.2.2.1 rfl,
   (C5_upsert_identity (fun _ => 0) 2 exUser { wp_users := [], api_usage := [] }).2.2.2.2.2 rfl⟩

/-- A filtered list is empty exactly when the matching count is zero. -/
theorem filter_eq_nil_iff_countP_eq_zero {α : Type} (p : α → Bool) (l : List α) :
    l.filter p = [] ↔ l.countP p = 0 := by
  rw [List.filter_eq_nil_iff, List.countP_eq_zero]

/-- Mapping a function that does not change the predicate's verdict does not
change the matching count. -/
theorem countP_map_invariant {α : Type} (p : α → Bool) (f : α → α) (l : List α)
    (h : ∀ a, p (f a) = p a) : (l.map f).countP p = l.countP p := by
  induction l with
  | nil => rfl
  | cons a l ih => rw [List.map_cons, List.countP_cons, List.countP_cons, ih, h]

/-- Filtering commutes with mapping a verdict-preserving function. -/
theorem filter_map_comm {α : Type} (p : α → Bool) (f : α → α) (l : List α)
    (h : ∀ a, p (f a) = p a) : (l.map f).filter p = (l.filter p).map f := by
  induction l with
  | nil => rfl
  | cons a l ih =>
    rw [List.map_cons, List.filter_cons, List.filter_cons, h a]
    by_cases hp : p a = true
    · rw [if_pos hp, if_pos hp, List.map_cons, ih]
    · rw [if_neg hp, if_neg hp, ih]

/-- Number of usage rows stored under one identity key. -/
def usageCount (uid : Int) (s : Store) : Nat :=
  s.api_usage.countP fun r => r.wp_user_id == uid

/-- The Usage Ledger invariant: at most one usage row per identity key. -/
def usageInv (s : Store) : Prop :=
  ∀ uid : Int, usageCount uid s ≤ 1

/-- Reduction of `get_user_usage` on an available store. -/
theorem get_user_usage_result (fail : Bool) (now : Nat) (uid : Int)
    (email : String) (s : Store) :
    get_user_usage fail now uid email (some s) =
      if fail then (some s, 0)
      else
        match s.api_usage.filter fun r => r.wp_user_id == uid with
        | [] => ((initialize_user_usage fail now uid email (some s)).1, 0)
        | r :: _ => (some s, r.queries) := rfl

/-- `initialize_user_usage` preserves the one-row-per-key invariant. -/
theorem usageInv_initialize (fail : Bool) (now : Nat) (uid : Int) (email : String)
    (s s' : Store)
    (h : (initialize_user_usage fail now uid email (some s)).1 = some s')
    (hinv : usageInv s) : usageInv s' := by
  rw [initialize_result] at h
  cases fail with
  | true =>
    rw [if_pos rfl] at h
    replace h : some s = some s' := h
    injection h with h'
    subst h'
    exact hinv
  | false =>
    rw [if_neg Bool.false_ne_true] at h
    by_cases he : (s.api_usage.filter fun r => r.wp_user_id == uid).isEmpty = true
    · rw [if_pos he] at h
      replace h : some { s with api_usage :=
          s.api_usage ++ [freshUsageRow now uid email] } = some s' := h
      injection h with h'
      subst h'
      intro uid'
      unfold usageCount
      show (s.api_usage ++ [freshUsageRow now uid email]).countP _ ≤ 1
      rw [List.countP_append]
      by_cases hu : uid' = uid
      · subst hu
        have hc0 : (s.api_usage.countP fun r => r.wp_user_id == uid') = 0 := by
          rw [← filter_eq_nil_iff_countP_eq_zero]
          exact List.isEmpty_iff.mp he
        rw [hc0]
        simp [freshUsageRow]
      · have h1 : ([freshUsageRow now uid email].countP fun r => r.wp_user_id == uid') = 0 := by
          simp [freshUsageRow, Ne.symm hu]
        rw [h1]
        exact hinv uid'
    · rw [if_neg he] at h
      replace h : some s = some s' := h
      injection h with h'
      subst h'
      exact hinv

/-- `get_user_usage` preserves the one-row-per-key invariant. -/
theorem usageInv_get (fail : Bool) (now : Nat) (uid : Int) (email : String)
    (s s' : Store)
    (h : (get_user_usage fail now uid email (some s)).1 = some s')
    (hinv : usageInv s) : usageInv s' := by
  rw [get_user_usage_result] at h
  cases fail with
  | true =>
    rw [if_pos rfl] at h
    replace h : some s = some s' := h
    injection h with h'
    subst h'
    exact hinv
  | false =>
    rw [if_neg Bool.false_ne_true] at h
    cases hfil : s.api_usage.filter fun r => r.wp_user_id == uid with
    | nil =>
      rw [hfil] at h
      exact usageInv_initialize false now uid email s s' h hinv
    | cons r rest =>
      rw [hfil] at h
      replace h : some s = some s' := h
      injection h with h'
      subst h'
      exact hinv

/-- Reduction of `increment_usage` on an available store. -/
theorem increment_result (fail : Bool) (now : Nat) (uid : Int) (email : String)
    (s : Store) :
    increment_usage fail now uid email (some s) =
      match get_user_usage fail now uid email (some s) with
      | (none, _) => (none, false)
      | (some s₁, current) =>
        (some { s₁ with api_usage := s₁.api_usage.map fun r =>
          if r.wp_user_id == uid then
            { r with queries := current + 1, last_query := some now }
          else r }, true) := rfl

/-- `increment_usage` preserves the one-row-per-key invariant. -/
theorem usageInv_increment (fail : Bool) (now : Nat) (uid : Int) (email : String)
    (s s' : Store)
    (h : (increment_usage fail now uid email (some s)).1 = some s')
    (hinv : usageInv s) : usageInv s' := by
  rw [increment_result] at h
  cases hg : get_user_usage fail now uid email (some s) with
  | mk sb cur =>
    cases sb with
    | none =>
      rw [hg] at h
      exact absurd h (by simp)
    | some s₁ =>
      rw [hg] at h
      replace h : some { s₁ with api_usage := s₁.api_usage.map fun (r : UsageRow) =>
          if r.wp_user_id == uid then
            { r with queries := cur + 1, last_query := some now }
          else r } = some s' := h
      injection h with h'
      subst h'
      have hinv₁ : usageInv s₁ :=
        usageInv_get fail now uid email s s₁ (by rw [hg]) hinv
      intro uid'
      have hpres : ∀ a : UsageRow,
          (((if a.wp_user_id == uid then
              { a with queries := cur + 1, last_query := some now }
            else a) : UsageRow).wp_user_id == uid') = (a.wp_user_id == uid') := by
        intro a
        by_cases hb : (a.wp_user_id == uid) = true
        · rw [if_pos hb]
        · rw [if_neg hb]
      unfold usageCount
      show ((s₁.api_usage.map fun (r : UsageRow) =>
          if r.wp_user_id == uid then
            { r with queries := cur + 1, last_query := some now }
          else r).countP fun (r : UsageRow) => r.wp_user_id == uid') ≤ 1
      rw [countP_map_invariant _ _ _ hpres]
      exact hinv₁ uid'

/-- `check_usage_limit` preserves the one-row-per-key invariant. -/
theorem usageInv_check (fail : Bool) (now : Nat) (uid : Int) (email : String)
    (limit : Nat) (s s' : Store)
    (h : (check_usage_limit fail now uid email limit (some s)).1 = some s')
    (hinv : usageInv s) : usageInv s' := by
  unfold check_usage_limit at h
  cases hg : get_user_usage fail now uid email (some s) with
  | mk sb cur =>
    rw [hg] at h
    replace h : sb = some s' := h
    subst h
    exact usageInv_get fail now uid email s s' (by rw [hg]) hinv

/-- `sync_woo_product_user` preserves the one-row-per-key invariant. -/
theorem usageInv_sync (pyHash : String → Int) (fail : Bool) (now : Nat)
    (u : UserData) (s s' : Store)
    (h : (sync_woo_product_user pyHash fail now u (some s)).1 = some s')
    (hinv : usageInv s) : usageInv s' := by
  cases fail with
  | true =>
    replace h : some s = some s' := h
    injection h with h'
    subst h'
    exact hinv
  | false =>
    rw [sync_reduce] at h
    exact usageInv_initialize false now (usage_user_id pyHash u) u.email _ s' h hinv

/-- C6: on an identity key with no usage row, `get_user_usage` creates
exactly one zero-counter row and returns 0; a second call returns 0 with the
store unchanged and no second row created; and every ledger and sync
operation preserves the at-most-one-usage-row-per-key invariant. -/
theorem C6_usage_row_created_once (now now' : Nat) (uid : Int) (email : String)
    (s : Store) :
    (usageCount uid s = 0 →
      get_user_usage false now uid email (some s) =
        (some { s with api_usage := s.api_usage ++ [freshUsageRow now uid email] }, 0) ∧
      usageCount uid
        { s with api_usage := s.api_usage ++ [freshUsageRow now uid email] } = 1 ∧
      get_user_usage false now' uid email
          (some { s with api_usage := s.api_usage ++ [freshUsageRow now uid email] }) =
        (some { s with api_usage := s.api_usage ++ [freshUsageRow now uid email] }, 0)) ∧
    (usageInv s →
      (∀ fail s',
        (initialize_user_usage fail now uid email (some s)).1 = some s' → usageInv s') ∧
      (∀ fail s',
        (get_user_usage fail now uid email (some s)).1 = some s' → usageInv s') ∧
      (∀ fail s',
        (increment_usage fail now uid email (some s)).1 = some s' → usageInv s') ∧
      (∀ fail limit s',
        (check_usage_limit fail now uid email limit (some s)).1 = some s' → usageInv s') ∧
      (∀ pyHash fail u s',
        (sync_woo_product_user pyHash fail now u (some s)).1 = some s' → usageInv s')) := by
  constructor
  · intro h0
    have hfil : s.api_usage.filter (fun r => r.wp_user_id == uid) = [] :=
      (filter_eq_nil_iff_countP_eq_zero _ _).mpr h0
    refine ⟨?_, ?_, ?_⟩
    · rw [get_user_usage_result, if_neg Bool.false_ne_true, hfil]
      rw [initialize_result, if_neg Bool.false_ne_true, if_pos (by rw [hfil]; rfl)]
    · unfold usageCount
      show (s.api_usage ++ [freshUsageRow now uid email]).countP _ = 1
      rw [List.countP_append,
        show (s.api_usage.countP fun r => r.wp_user_id == uid) = 0 from h0]
      simp [freshUsageRow]
    · have hfil₁ : (s.api_usage ++ [freshUsageRow now uid email]).filter
          (fun r => r.wp_user_id == uid) = [freshUsageRow now uid email] := by
        rw [List.filter_append, hfil]
        simp [freshUsageRow]
      rw [get_user_usage_result, if_neg Bool.false_ne_true]
      rw [show ({ s with api_usage := s.api_usage ++ [freshUsageRow now uid email] } :
            Store).api_usage.filter (fun r => r.wp_user_id == uid) =
          [freshUsageRow now uid email] from hfil₁]
      rfl
  · intro hinv
    exact ⟨fun fail s' h => usageInv_initialize fail now uid email s s' h hinv,
      fun fail s' h => usageInv_get fail now uid email s s' h hinv,
      fun fail s' h => usageInv_increment fail now uid email s s' h hinv,
      fun fail limit s' h => usageInv_check fail now uid email limit s s' h hinv,
      fun pyHash fail u s' h => usageInv_sync pyHash fail now u s s' h hinv⟩

/-- C6 witness: on the empty store, key 5 gets exactly one zero-counter row,
a second read returns 0 without a second row, and the invariant holds for
the store produced by that first read. -/
theorem C6_usage_row_created_once_witness :
    (get_user_usage false 1 5 "e" (some { wp_users := [], api_usage := [] }) =
        (some { wp_users := [], api_usage := [freshUsageRow 1 5 "e"] }, 0) ∧
      usageCount 5 { wp_users := [], api_usage := [freshUsageRow 1 5 "e"] } = 1 ∧
      get_user_usage false 2 5 "e"
          (some { wp_users := [], api_usage := [freshUsageRow 1 5 "e"] }) =
        (some { wp_users := [], api_usage := [freshUsageRow 1 5 "e"] }, 0)) ∧
    usageInv { wp_users := [], api_usage := [freshUsageRow 1 5 "e"] } :=
  ⟨(C6_usage_row_created_once 1 2 5 "e" { wp_users := [], api_usage := [] }).1 rfl,
   ((C6_usage_row_created_once 1 2 5 "e" { wp_users := [], api_usage := [] }).2
      (fun _ => Nat.zero_le 1)).2.1 false
      { wp_users := [], api_usage := [freshUsageRow 1 5 "e"] } rfl⟩

/-- C7: on a store whose single usage row for the key carries counter N, one
`increment_usage` call succeeds, stores counter N + 1, and stamps the
last-query timestamp with the current time, which under a monotone clock is
at least the previous stamp. -/
theorem C7_increment_adds_one (now : Nat) (uid : Int) (email : String)
    (s : Store) (r : UsageRow) (N : Nat)
    (hfil : s.api_usage.filter (fun x => x.wp_user_id == uid) = [r])
    (hq : r.queries = N)
    (hclock : ∀ t, r.last_query = some t → t ≤ now) :
    ∃ s', increment_usage false now uid email (some s) = (some s', true) ∧
      s'.api_usage.filter (fun x => x.wp_user_id == uid) =
        [{ r with queries := N + 1, last_query := some now }] ∧
      ({ r with queries := N + 1, last_query := some now } : UsageRow).queries = N + 1 ∧
      (∀ t, r.last_query = some t → t ≤ now) := by
  have hget : get_user_usage false now uid email (some s) = (some s, N) := by
    rw [get_user_usage_result, if_neg Bool.false_ne_true, hfil]
    show (some s, r.queries) = (some s, N)
    rw [hq]
  have hpres : ∀ a : UsageRow,
      (((if a.wp_user_id == uid then
          { a with queries := N + 1, last_query := some now }
        else a) : UsageRow).wp_user_id == uid) = (a.wp_user_id == uid) := by
    intro a
    by_cases hb : (a.wp_user_id == uid) = true
    · rw [if_pos hb]
    · rw [if_neg hb]
  refine ⟨{ s with api_usage := s.api_usage.map fun (x : UsageRow) =>
      if x.wp_user_id == uid then
        { x with queries := N + 1, last_query := some now }
      else x }, ?_, ?_, rfl, hclock⟩
  · rw [increment_result, hget]
  · have hrmem : r ∈ s.api_usage.filter (fun x => x.wp_user_id == uid) := by
      rw [hfil]
      exact List.mem_cons_self r []
    have hr : (r.wp_user_id == uid) = true := (List.mem_filter.mp hrmem).2
    show (s.api_usage.map fun (x : UsageRow) =>
        if x.wp_user_id == uid then
          { x with queries := N + 1, last_query := some now }
        else x).filter (fun x => x.wp_user_id == uid) = _
    rw [filter_map_comm _ _ _ hpres, hfil, List.map_cons, List.map_nil, if_pos hr]

/-- C7 witness: incrementing key 5 on a store holding one row with counter 2
yields a row with counter 3 and the fresh timestamp. -/
theorem C7_increment_adds_one_witness :
    ∃ s', increment_usage false 3 5 "e"
        (some { wp_users := [], api_usage :=
          [{ wp_user_id := 5, email := "e", queries := 2
             last_query := some 1, created_at := 0 }] }) = (some s', true) ∧
      s'.api_usage.filter (fun x => x.wp_user_id == (5 : Int)) =
        [{ wp_user_id := 5, email := "e", queries := 3
           last_query := some 3, created_at := 0 }] ∧
      ({ wp_user_id := 5, email := "e", queries := 3
         last_query := some 3, created_at := 0 } : UsageRow).queries = 2 + 1 ∧
      (∀ t, (some 1 : Option Nat) = some t → t ≤ 3) :=
  C7_increment_adds_one 3 5 "e"
    { wp_users := [], api_usage :=
      [{ wp_user_id := 5, email := "e", queries := 2
         last_query := some 1, created_at := 0 }] }
    { wp_user_id := 5, email := "e", queries := 2
      last_query := some 1, created_at := 0 } 2
    (of_decide_eq_true rfl) rfl
    (fun t ht => by
      have h1 : t = 1 := by injection ht with h; exact h.symm
      subst h1
      exact Nat.le_of_lt (by omega))

/-- C8: when token validation against the Gateway fails mid-session (the
session is authenticated and holds an identity), `check_authentication`
returns false and the Session State comes back fully cleared — authenticated
flag false, identity absent, token absent — as the single returned value, so
no intermediate state is observable by the caller; the source
`validate_wp_token` reports failure on missing configuration, an empty
token, a non-200 introspection status, or a raised exception. -/
theorem C8_validation_failure_clears_session (config : Bool) (resp : Resp Unit)
    (s : SpecSession)
    (hauth : s.authenticated = true)
    (_hid : s.identity.isSome = true)
    (hval : validate_wp_token config (s.token.getD "") resp = false) :
    check_authentication config resp s = (false, emptySession) ∧
    emptySession.authenticated = false ∧
    emptySession.identity = none ∧
    emptySession.token = none ∧
    (∀ t, validate_wp_token false t resp = false) ∧
    (∀ c t, validate_wp_token c t .err = false) ∧
    (∀ c t, validate_wp_token c t .exn = false) ∧
    (∀ c, validate_wp_token c "" resp = false) := by
  refine ⟨?_, rfl, rfl, rfl, fun t => rfl, fun c t => ?_, fun c t => ?_, fun c => ?_⟩
  · unfold check_authentication
    rw [hauth, hval]
    rfl
  · unfold validate_wp_token
    split
    · rfl
    · rfl
  · unfold validate_wp_token
    split
    · rfl
    · rfl
  · unfold validate_wp_token
    simp

/-- A concrete session identity for witnesses. -/
def exSessionUser : SessionUser :=
  { id := 1, email := "u@e.com", username := some "u", display_name := some "U"
    purchased_products := [], product_access := true }

/-- C8 witness: an authenticated session whose introspection call returns a
non-200 status is cleared. -/
theorem C8_validation_failure_clears_session_witness :
    check_authentication true .err
      { authenticated := true, identity := some exSessionUser, token := some "tok" } =
      (false, emptySession) :=
  (C8_validation_failure_clears_session true .err
    { authenticated := true, identity := some exSessionUser, token := some "tok" }
    rfl rfl rfl).1

/-- C9: within `sync_woo_product_user`, the usage-ledger key of line 270 is
derived from the same identity attribute the `wp_users` lookup key of lines
248-253 selects: the WordPress user id when truthy, else the commerce
customer id when truthy, else the email (the ledger stores its Python
`hash`); so the identity-record upsert and the usage-record creation refer
to the same identity value, and the email key is always present. -/
theorem C9_consistent_identity_key (pyHash : String → Int) (u : UserData) :
    usage_user_id pyHash u =
      (match sync_lookup_key u with
       | .userId n => (n : Int)
       | .custId n => (n : Int)
       | .email e => pyHash e) := by
  unfold usage_user_id sync_lookup_key pyOrNat
  cases hw : u.wp_user_id with
  | some n =>
    by_cases hn : n = 0
    · subst hn
      cases hc : u.wc_customer_id with
      | some m =>
        by_cases hm : m = 0
        · subst hm
          simp [truthy]
        · simp [truthy, hm]
      | none => simp [truthy]
    · simp [truthy, hn]
  | none =>
    cases hc : u.wc_customer_id with
    | some m =>
      by_cases hm : m = 0
      · subst hm
        simp [truthy]
      · simp [truthy, hm]
    | none => simp [truthy]

/-- C10: when the store read of the usage counter fails, `get_user_usage`
returns the sentinel 0, and `check_usage_limit` therefore admits for any
positive limit regardless of what is actually stored. -/
theorem C10_quota_fails_open (now : Nat) (uid : Int) (email : String)
    (limit : Nat) (s : Store) (hpos : 0 < limit) :
    (get_user_usage true now uid email (some s) = (some s, 0)) ∧
    (get_user_usage true now uid email none = (none, 0)) ∧
    (check_usage_limit true now uid email limit (some s) = (some s, true)) ∧
    (check_usage_limit true now uid email limit none = (none, true)) := by
  refine ⟨rfl, rfl, ?_, ?_⟩
  · unfold check_usage_limit
    rw [get_user_usage_result, if_pos rfl]
    show (some s, decide (0 < limit)) = (some s, true)
    rw [decide_eq_true hpos]
  · unfold check_usage_limit
    rw [show get_user_usage true now uid email none = (none, 0) from rfl]
    show (none, decide (0 < limit)) = (none, true)
    rw [decide_eq_true hpos]

/-- C10 witness: with a failing store read, a stored counter of 50 is
ignored and the limit-30 check still admits. -/
theorem C10_quota_fails_open_witness :
    (get_user_usage true 1 5 "e"
        (some { wp_users := [], api_usage :=
          [{ wp_user_id := 5, email := "e", queries := 50
             last_query := none, created_at := 0 }] }) =
      (some { wp_users := [], api_usage :=
        [{ wp_user_id := 5, email := "e", queries := 50
           last_query := none, created_at := 0 }] }, 0)) ∧
    (get_user_usage true 1 5 "e" none = (none, 0)) ∧
    (check_usage_limit true 1 5 "e" 30
        (some { wp_users := [], api_usage :=
          [{ wp_user_id := 5, email := "e", queries := 50
             last_query := none, created_at := 0 }] }) =
      (some { wp_users := [], api_usage :=
        [{ wp_user_id := 5, email := "e", queries := 50
           last_query := none, created_at := 0 }] }, true)) ∧
    (check_usage_limit true 1 5 "e" 30 none = (none, true)) :=
  C10_quota_fails_open 1 5 "e" 30
    { wp_users := [], api_usage :=
      [{ wp_user_id := 5, email := "e", queries := 50
         last_query := none, created_at := 0 }] }
    (by omega)

end Syncup
